import Mathlib

/-!
Verification of the KMRL nightly train-induction optimizer and ranker.

The development shallowly embeds the Python sources:
  * `solver.py`   — standalone pipeline (`preprocess_data`,
    `preprocess_shunting_costs`, `create_and_solve_model`);
  * `solver2.py`  — two-phase pipeline used by the dashboard
    (`preprocess_data_with_reasons`, `preprocess_shunting_costs`,
    `solve_primary_assignment`, `show_train_recommendations_for_line`);
  * `app.py`      — dashboard; its tab-3 ranking repeats `solver2.py`'s
    ranking logic on the same data.

Conventions of the embedding:
  * Dates are encoded as integers in `YYYYMMDD` form; for valid dates the
    integer order coincides with the calendar order, which is all the code
    ever uses (`<`, `>=` comparisons on dates).
  * Pandas floats (`mean()` of a column) are embedded as rationals `ℚ`;
    Python `int(x)` is truncation toward zero, embedded as `ratTrunc`.
  * A CP-SAT model is embedded as the list of constraints the Python code
    adds (`Constr`), and a candidate solver answer as a valuation `Sol` of
    each train's three booleans and the two auxiliary integer variables of
    `solver2.py`.  A returned OPTIMAL/FEASIBLE assignment is exactly a
    valuation satisfying every constraint of the list.
-/

namespace KMRL

/-- Python `int()` on a rational: truncation toward zero — the floor for a
nonnegative argument and the ceiling for a negative one, so that
`int(-100.5) = -100` and `int(100.5) = 100`. -/
def ratTrunc (q : ℚ) : ℤ := if 0 ≤ q then ⌊q⌋ else ⌈q⌉

/-- A row of `trainsets_master.csv`: a trainset id and its
`cumulative_mileage_km`.  Ids are embedded as naturals. -/
structure Trainset where
  trainset_id : Nat
  cumulative_mileage_km : ℚ
deriving DecidableEq, Repr

/-- A row of `fitness_certificates.csv` (after `load_data` converted
`expiry_date` to a date). -/
structure Certificate where
  trainset_id : Nat
  expiry_date : ℤ
deriving DecidableEq, Repr

/-- A row of `job_cards_maximo.csv`. -/
structure JobCard where
  trainset_id : Nat
  status : String
  is_critical : Bool
  required_man_hours : ℤ
deriving DecidableEq, Repr

/-- A row of `branding_slas.csv`. -/
structure SLA where
  trainset_id : Nat
  current_exposure_hours : ℤ
  target_exposure_hours : ℤ
  penalty_per_hour : ℤ
deriving DecidableEq, Repr

/-- A row of `depot_layout_costs.csv`. -/
structure LayoutCost where
  to_location : String
  shunting_cost : ℚ
deriving DecidableEq, Repr

/-- The reason strings produced by `preprocess_data_with_reasons`
(`solver2.py`, lines 47-60), as a tagged enumeration. -/
inductive EligReason where
  | eligible
  | missingCertificates
  | certificateExpired
  | criticalMaintenanceOpen
deriving DecidableEq, Repr

/-- The per-train record `{'is_eligible': _, 'reason': _}` that
`preprocess_data_with_reasons` stores for each trainset id. -/
structure EligibilityVerdict where
  is_eligible : Bool
  reason : EligReason
deriving DecidableEq, Repr

/-- The date `solver2.py` hardcodes as `today = datetime.date(2025, 9, 18)`
(line 43), in `YYYYMMDD` encoding. -/
def refDate2 : ℤ := 20250918

/-- `solver2.py` `preprocess_data_with_reasons`, body of the per-train loop
(lines 46-60): the verdict for one trainset id.  `today` is the reference
date (the function hardcodes `refDate2`; it is a parameter here so that the
body is stated once).
  * fewer than 3 certificates → `Missing required certificates`;
  * some certificate with `expiry_date < today` → `Certificate expired`;
  * some job card with status OPEN and critical → `Critical maintenance open`;
  * otherwise the default `Eligible for service` entry survives. -/
def verdictFor (certificates : List Certificate) (job_cards : List JobCard)
    (today : ℤ) (train_id : Nat) : EligibilityVerdict :=
  let certs := certificates.filter (fun c => c.trainset_id == train_id)
  if certs.length < 3 then ⟨false, .missingCertificates⟩
  else if certs.any (fun c => decide (c.expiry_date < today)) then
    ⟨false, .certificateExpired⟩
  else
    let jobs := job_cards.filter (fun j => j.trainset_id == train_id)
    if jobs.any (fun j => j.status == "OPEN" && j.is_critical) then
      ⟨false, .criticalMaintenanceOpen⟩
    else ⟨true, .eligible⟩

/-- `solver2.py` `preprocess_data_with_reasons` as run: the reference date is
the constant `datetime.date(2025, 9, 18)`, regardless of the wall clock.
The `clock` argument models the ambient wall-clock date of the run; the
Python function never reads it. -/
def preprocess_data_with_reasons (_clock : ℤ) (certificates : List Certificate)
    (job_cards : List JobCard) (train_id : Nat) : EligibilityVerdict :=
  verdictFor certificates job_cards refDate2 train_id

/-- `solver.py` `preprocess_data`, body of the per-train loop (lines 37-53).
It produces only a boolean, and it uses `datetime.date.today()` (line 35) —
the ambient wall-clock date `clock` — as the reference date. -/
def preprocess_data (clock : ℤ) (certificates : List Certificate)
    (job_cards : List JobCard) (train_id : Nat) : Bool :=
  let certs := certificates.filter (fun c => c.trainset_id == train_id)
  if certs.length < 3 || certs.any (fun c => decide (c.expiry_date < clock)) then
    false
  else
    let jobs := job_cards.filter (fun j => j.trainset_id == train_id)
    !(jobs.any (fun j => j.status == "OPEN" && j.is_critical))

/-- The fleet-average mileage `data["trainsets"]["cumulative_mileage_km"].mean()`
(`solver.py` line 76, `solver2.py` line 80). -/
def avgMileage (trainsets : List Trainset) : ℚ :=
  (trainsets.map (·.cumulative_mileage_km)).sum / trainsets.length

/-- Per-train pending open-job man-hours: `solver.py` lines 102-105 filters
job cards with matching id and status OPEN and sums `required_man_hours`;
`solver2.py` line 92 computes the same dictionary by a groupby (`get(t, 0)`
yields the same total, `0` when the train has no open job cards). -/
def requiredHours (job_cards : List JobCard) (train_id : Nat) : ℤ :=
  ((job_cards.filter (fun j => j.trainset_id == train_id && j.status == "OPEN")).map
    (·.required_man_hours)).sum

/-- A valuation of one train's model variables: the three booleans
`service` / `standby` / `maintenance`, and — for `solver2.py`'s model —
the auxiliary integer variables `abs_dev_<id>` and
`serv_mileage_cost_<id>`. -/
structure SolEntry where
  service : Bool
  standby : Bool
  maintenance : Bool
  abs_dev : ℤ
  serv_cost : ℤ
deriving DecidableEq, Repr

/-- A candidate solver answer: a valuation for every train id. -/
def Sol : Type := Nat → SolEntry

/-- `0/1` value of a boolean CP-SAT variable. -/
def b2n (b : Bool) : Nat := if b then 1 else 0

/-- The constraints the Python code adds to the CP-SAT model. -/
inductive Constr where
  /-- `model.AddExactlyOne(assignments[t].values())`. -/
  | exactlyOne (t : Nat)
  /-- `model.Add(assignments[t]["service"] == 0)`. -/
  | serviceEqZero (t : Nat)
  /-- `model.Add(sum(maintenance vars over ids) <= cap)`. -/
  | maintLe (ids : List Nat) (cap : ℤ)
  /-- `model.Add(sum(maintenance var * hours) <= cap)` over `(id, hours)`. -/
  | hoursLe (items : List (Nat × ℤ)) (cap : ℤ)
  /-- `abs_dev = model.NewIntVar(0, 200000, ...)` with
  `model.AddAbsEquality(abs_dev, dev)` for the constant `dev`. -/
  | absDevEq (t : Nat) (dev : ℤ)
  /-- `serv_mileage_cost = model.NewIntVar(0, 200000, ...)` with
  `cost == abs_dev` enforced when service, `cost == 0` when not. -/
  | servCostLink (t : Nat)
deriving DecidableEq, Repr

/-- Whether a valuation satisfies one constraint. -/
def satC (sol : Sol) : Constr → Bool
  | .exactlyOne t =>
      b2n (sol t).service + b2n (sol t).standby + b2n (sol t).maintenance == 1
  | .serviceEqZero t => (sol t).service == false
  | .maintLe ids cap =>
      decide (((ids.map (fun i => b2n (sol i).maintenance)).sum : ℤ) ≤ cap)
  | .hoursLe items cap =>
      decide ((items.map (fun p => (b2n (sol p.1).maintenance : ℤ) * p.2)).sum ≤ cap)
  | .absDevEq t dev =>
      decide (0 ≤ (sol t).abs_dev ∧ (sol t).abs_dev ≤ 200000 ∧ (sol t).abs_dev = |dev|)
  | .servCostLink t =>
      decide (0 ≤ (sol t).serv_cost ∧ (sol t).serv_cost ≤ 200000
        ∧ ((sol t).service = true → (sol t).serv_cost = (sol t).abs_dev)
        ∧ ((sol t).service = false → (sol t).serv_cost = 0))

/-- A valuation satisfies a model when it satisfies each of its constraints;
a returned OPTIMAL/FEASIBLE assignment is such a valuation. -/
def satAll (model : List Constr) (sol : Sol) : Prop :=
  model.all (satC sol) = true

instance (model : List Constr) (sol : Sol) : Decidable (satAll model sol) := by
  unfold satAll; infer_instance

/-- The constraint set of `solver.py` `create_and_solve_model`
(lines 87-108): the exactly-one constraints (one loop), then the forced
`service == 0` for each ineligible train (second loop), then the IBL-bay
cap and the cleaning man-hour cap.  `elig` is the dictionary produced by
`preprocess_data`. -/
def buildModel1 (trainsets : List Trainset) (elig : Nat → Bool)
    (iblCap manpowerCap : ℤ) (reqHours : Nat → ℤ) : List Constr :=
  (trainsets.map (fun t => Constr.exactlyOne t.trainset_id))
    ++ (trainsets.filterMap (fun t =>
        if elig t.trainset_id then none else some (.serviceEqZero t.trainset_id)))
    ++ [.maintLe (trainsets.map (·.trainset_id)) iblCap,
        .hoursLe (trainsets.map (fun t => (t.trainset_id, reqHours t.trainset_id))) manpowerCap]

/-- The constraint set of `solver2.py` `solve_primary_assignment`
(lines 83-111): one loop adds, per train, the exactly-one constraint and —
when `eligibility_details.get(t, {}).get('is_eligible', False)` is false —
the forced `service == 0`; then the two capacity constraints; then the
mileage loop adds, per train, `AddAbsEquality(abs_dev, int(mileage - avg))`
and the two `OnlyEnforceIf` links for `serv_mileage_cost`. -/
def buildModel2 (trainsets : List Trainset) (elig : Nat → Bool)
    (iblCap manpowerCap : ℤ) (reqHours : Nat → ℤ) : List Constr :=
  (trainsets.flatMap (fun t =>
      Constr.exactlyOne t.trainset_id
        :: (if elig t.trainset_id then [] else [.serviceEqZero t.trainset_id])))
    ++ [.maintLe (trainsets.map (·.trainset_id)) iblCap,
        .hoursLe (trainsets.map (fun t => (t.trainset_id, reqHours t.trainset_id))) manpowerCap]
    ++ (trainsets.flatMap (fun t =>
        [.absDevEq t.trainset_id (ratTrunc (t.cumulative_mileage_km - avgMileage trainsets)),
         .servCostLink t.trainset_id]))

/-- The mileage-deviation objective component of `solver.py`
`create_and_solve_model` (lines 111-117): the loop appends
`service * int(mileage - avg)` only for trains whose mileage exceeds the
fleet average; `total_mileage_cost` is the sum of the appended terms. -/
def mileageCost1 (trainsets : List Trainset) (sol : Sol) : ℤ :=
  ((trainsets.filter
      (fun t => decide (avgMileage trainsets < t.cumulative_mileage_km))).map
    (fun t => (b2n (sol t.trainset_id).service : ℤ)
      * ratTrunc (t.cumulative_mileage_km - avgMileage trainsets))).sum

/-- The mileage-deviation objective component of `solver2.py`
`solve_primary_assignment` (line 114): the sum of the auxiliary
`serv_mileage_cost` variables. -/
def mileageCost2 (trainsets : List Trainset) (sol : Sol) : ℤ :=
  (trainsets.map (fun t => (sol t.trainset_id).serv_cost)).sum

/-- One SLA's branding objective term,
`(1 - assignments[id]["service"]) * int(penalty_per_hour)`
(`solver.py` lines 123-124, `solver2.py` line 115). -/
def slaTerm (s : SLA) (sol : Sol) : ℤ :=
  (1 - (b2n (sol s.trainset_id).service : ℤ)) * s.penalty_per_hour

/-- `total_branding_penalty`: the sum of `slaTerm` over the SLA rows whose
trainset id is among the model's trains (`if train_id in assignments`,
`solver.py` line 122; same guard in `solver2.py` line 115). -/
def brandingPenalty (slas : List SLA) (ids : List Nat) (sol : Sol) : ℤ :=
  ((slas.filter (fun s => ids.contains s.trainset_id)).map
    (fun s => slaTerm s sol)).sum

/-- The result decoder of `solver.py` (lines 155-158): `status_str` starts
as `"Unknown"` and the three `if/elif` branches overwrite it. -/
def decodeStatus1 (v : SolEntry) : String :=
  if v.service then "Revenue Service"
  else if v.standby then "Standby"
  else if v.maintenance then "Maintenance"
  else "Unknown"

/-- The result decoder of `solver2.py` (line 133): a conditional expression
whose final branch is `"Maintenance"`. -/
def decodeStatus2 (v : SolEntry) : String :=
  if v.service then "Revenue Service"
  else if v.standby then "Standby"
  else "Maintenance"

/-- The engine statuses of the optimization-engine contract: OPTIMAL,
FEASIBLE, INFEASIBLE, and the expiry of the time budget (TIMEOUT).  The
Python code branches only on membership in `(OPTIMAL, FEASIBLE)`
(`solver.py` line 151, `solver2.py` line 132), so every other status takes
the `None` branch. -/
inductive CpStatus where
  | optimal
  | feasible
  | infeasible
  | timeout
deriving DecidableEq, Repr

/-- Result processing of `solver.py` `create_and_solve_model`
(lines 151-186): for OPTIMAL/FEASIBLE, one decoded row per train id, in
roster order; otherwise `None`. -/
def processResult1 (status : CpStatus) (trainsets : List Trainset) (sol : Sol) :
    Option (List (Nat × String)) :=
  if status = .optimal ∨ status = .feasible then
    some (trainsets.map (fun t => (t.trainset_id, decodeStatus1 (sol t.trainset_id))))
  else none

/-- Result processing of `solver2.py` `solve_primary_assignment`
(lines 132-137): for OPTIMAL/FEASIBLE, the solution dictionary with one
decoded status per train id; otherwise `None`. -/
def processResult2 (status : CpStatus) (trainsets : List Trainset) (sol : Sol) :
    Option (List (Nat × String)) :=
  if status = .optimal ∨ status = .feasible then
    some (trainsets.map (fun t => (t.trainset_id, decodeStatus2 (sol t.trainset_id))))
  else none

/-- `pat` occurs at the start of `s` (character lists). -/
def chListPre : List Char → List Char → Bool
  | [], _ => true
  | _ :: _, [] => false
  | p :: ps, c :: cs => p == c && chListPre ps cs

/-- `pat` occurs somewhere inside `s` (character lists). -/
def chListSub (pat : List Char) : List Char → Bool
  | [] => pat.isEmpty
  | c :: cs => chListPre pat (c :: cs) || chListSub pat cs

/-- Pandas `Series.str.contains(pat)` for the literal patterns used here:
substring containment. -/
def strContainsSub (s pat : String) : Bool := chListSub pat.data s.data

/-- The mean of a list of rationals; `none` models pandas' undefined mean
of an empty column (`NaN`), the branch the Python code guards against. -/
def meanOpt (l : List ℚ) : Option ℚ :=
  match l with
  | [] => none
  | _ => some (l.sum / l.length)

/-- The dictionary `preprocess_shunting_costs` returns. -/
structure ShuntingCosts where
  maintenance : ℤ
  stabling : ℤ
deriving DecidableEq, Repr

/-- `preprocess_shunting_costs` (`solver.py` lines 57-68, `solver2.py`
lines 65-71): filter rows whose `to_location` contains `IBL_Bay`
(respectively `Stabling_Track`), take the mean cost when the filtered frame
is non-empty and `0` otherwise, and truncate each average with `int(...)`.
The result is `none` only if an empty-mean were ever taken. -/
def preprocess_shunting_costs (layout : List LayoutCost) : Option ShuntingCosts :=
  let to_maintenance_moves := layout.filter (fun r => strContainsSub r.to_location "IBL_Bay")
  let avgM : Option ℚ :=
    if !to_maintenance_moves.isEmpty then
      meanOpt (to_maintenance_moves.map (·.shunting_cost))
    else some 0
  let to_stabling_moves := layout.filter (fun r => strContainsSub r.to_location "Stabling_Track")
  let avgS : Option ℚ :=
    if !to_stabling_moves.isEmpty then
      meanOpt (to_stabling_moves.map (·.shunting_cost))
    else some 0
  match avgM, avgS with
  | some a, some b => some ⟨ratTrunc a, ratTrunc b⟩
  | _, _ => none

/-- The per-train dictionary built by
`show_train_recommendations_for_line` (`solver2.py` lines 165-182) and by
`app.py`'s tab 3, restricted to the fields the ranking reads: the id, the
assigned status string, and the mileage (the sort key). -/
structure Detail where
  id : Nat
  status : String
  mileage : ℚ
deriving DecidableEq, Repr

/-- Ascending mileage comparison, `key=lambda x: x['mileage']`. -/
def mleAsc (a b : Detail) : Prop := a.mileage ≤ b.mileage

/-- Descending mileage comparison, `key=lambda x: x['mileage'],
reverse=True`. -/
def mleDesc (a b : Detail) : Prop := b.mileage ≤ a.mileage

/-- Strictly-greater mileage comparison (used to state uniqueness of the
descending order when mileages are distinct). -/
def mGt (a b : Detail) : Prop := b.mileage < a.mileage

instance : DecidableRel mleAsc :=
  fun a b => inferInstanceAs (Decidable (a.mileage ≤ b.mileage))

instance : DecidableRel mleDesc :=
  fun a b => inferInstanceAs (Decidable (b.mileage ≤ a.mileage))

instance : IsTotal Detail mleAsc := ⟨fun a b => le_total a.mileage b.mileage⟩

instance : IsTrans Detail mleAsc := ⟨fun _ _ _ h1 h2 => le_trans h1 h2⟩

instance : IsTotal Detail mleDesc := ⟨fun a b => le_total b.mileage a.mileage⟩

instance : IsTrans Detail mleDesc := ⟨fun _ _ _ h1 h2 => le_trans h2 h1⟩

instance : IsAntisymm Detail mGt :=
  ⟨fun _ _ h1 h2 => absurd (lt_trans h1 h2) (lt_irrefl _)⟩

/-- The configured route profiles, `METRO_LINES` (`solver2.py` lines 8-14;
`app.py` repeats the same table). -/
def METRO_LINES : List (String × ℚ) :=
  [("Line A (Short: 20km)", 250), ("Line B (Medium: 40km)", 450),
   ("Line C (Long: 60km)", 650), ("Line D (Express: 80km)", 900),
   ("Line E (Long Express: 100km)", 1100)]

/-- `avg_line_mileage = sum(lines.values()) / len(lines)` (`solver2.py`
line 189, `app.py` line 600). -/
def avgLineMileage (lines : List (String × ℚ)) : ℚ :=
  (lines.map (·.2)).sum / lines.length

/-- The Service bucket: `[t for t in all_trains_details if t['status'] ==
'Revenue Service']` (`solver2.py` line 185). -/
def serviceTrains (allDetails : List Detail) : List Detail :=
  allDetails.filter (fun t => t.status == "Revenue Service")

/-- The ranked Service bucket for a route of daily distance `dist`
(`solver2.py` lines 190-199, `app.py` lines 599-610):
`is_long_line = dist >= avg_line_mileage`; a long line sorts the bucket by
ascending mileage, a short line by descending mileage.  Python's
`list.sort` is stable; `List.insertionSort` with `mleAsc` (which keeps an
earlier element before an equal-keyed later one) is the stable ascending
sort, and with `mleDesc` the stable descending sort — extensionally the
sorts the Python code performs. -/
def sortServiceBucket (lines : List (String × ℚ)) (dist : ℚ)
    (bucket : List Detail) : List Detail :=
  if avgLineMileage lines ≤ dist then List.insertionSort mleAsc bucket
  else List.insertionSort mleDesc bucket

/-! ### Shared lemmas about model satisfaction -/

/-- A valuation satisfying a model satisfies each member constraint. -/
theorem satC_of_satAll {model : List Constr} {sol : Sol} (h : satAll model sol)
    {c : Constr} (hc : c ∈ model) : satC sol c = true :=
  List.all_eq_true.mp h c hc

/-- The forced `service == 0` constraint for an ineligible train is in
`solver.py`'s model. -/
theorem serviceEqZero_mem_buildModel1 {trainsets : List Trainset} {elig : Nat → Bool}
    {iblCap manpowerCap : ℤ} {reqHours : Nat → ℤ} {t : Trainset}
    (ht : t ∈ trainsets) (he : elig t.trainset_id = false) :
    Constr.serviceEqZero t.trainset_id
      ∈ buildModel1 trainsets elig iblCap manpowerCap reqHours := by
  unfold buildModel1
  refine List.mem_append_left _ (List.mem_append_right _ ?_)
  exact List.mem_filterMap.mpr ⟨t, ht, by rw [he]; rfl⟩

/-- The forced `service == 0` constraint for an ineligible train is in
`solver2.py`'s model. -/
theorem serviceEqZero_mem_buildModel2 {trainsets : List Trainset} {elig : Nat → Bool}
    {iblCap manpowerCap : ℤ} {reqHours : Nat → ℤ} {t : Trainset}
    (ht : t ∈ trainsets) (he : elig t.trainset_id = false) :
    Constr.serviceEqZero t.trainset_id
      ∈ buildModel2 trainsets elig iblCap manpowerCap reqHours := by
  unfold buildModel2
  refine List.mem_append_left _ (List.mem_append_left _ ?_)
  refine List.mem_flatMap.mpr ⟨t, ht, ?_⟩
  rw [he]
  exact List.mem_cons_of_mem _ (List.mem_singleton.mpr rfl)

/-- The IBL-bay capacity constraint is in `solver.py`'s model. -/
theorem maintLe_mem_buildModel1 {trainsets : List Trainset} {elig : Nat → Bool}
    {iblCap manpowerCap : ℤ} {reqHours : Nat → ℤ} :
    Constr.maintLe (trainsets.map (·.trainset_id)) iblCap
      ∈ buildModel1 trainsets elig iblCap manpowerCap reqHours := by
  unfold buildModel1
  refine List.mem_append_right _ ?_
  exact List.mem_cons_self _ _

/-- The IBL-bay capacity constraint is in `solver2.py`'s model. -/
theorem maintLe_mem_buildModel2 {trainsets : List Trainset} {elig : Nat → Bool}
    {iblCap manpowerCap : ℤ} {reqHours : Nat → ℤ} :
    Constr.maintLe (trainsets.map (·.trainset_id)) iblCap
      ∈ buildModel2 trainsets elig iblCap manpowerCap reqHours := by
  unfold buildModel2
  refine List.mem_append_left _ (List.mem_append_right _ ?_)
  exact List.mem_cons_self _ _

/-- The exactly-one constraint for each train is in `solver.py`'s model. -/
theorem exactlyOne_mem_buildModel1 {trainsets : List Trainset} {elig : Nat → Bool}
    {iblCap manpowerCap : ℤ} {reqHours : Nat → ℤ} {t : Trainset} (ht : t ∈ trainsets) :
    Constr.exactlyOne t.trainset_id
      ∈ buildModel1 trainsets elig iblCap manpowerCap reqHours := by
  unfold buildModel1
  refine List.mem_append_left _ (List.mem_append_left _ ?_)
  exact List.mem_map_of_mem _ ht

/-- The exactly-one constraint for each train is in `solver2.py`'s model. -/
theorem exactlyOne_mem_buildModel2 {trainsets : List Trainset} {elig : Nat → Bool}
    {iblCap manpowerCap : ℤ} {reqHours : Nat → ℤ} {t : Trainset} (ht : t ∈ trainsets) :
    Constr.exactlyOne t.trainset_id
      ∈ buildModel2 trainsets elig iblCap manpowerCap reqHours := by
  unfold buildModel2
  refine List.mem_append_left _ (List.mem_append_left _ ?_)
  exact List.mem_flatMap.mpr ⟨t, ht, List.mem_cons_self _ _⟩

/-- The absolute-value constraint for each train is in `solver2.py`'s
model. -/
theorem absDevEq_mem_buildModel2 {trainsets : List Trainset} {elig : Nat → Bool}
    {iblCap manpowerCap : ℤ} {reqHours : Nat → ℤ} {t : Trainset} (ht : t ∈ trainsets) :
    Constr.absDevEq t.trainset_id
        (ratTrunc (t.cumulative_mileage_km - avgMileage trainsets))
      ∈ buildModel2 trainsets elig iblCap manpowerCap reqHours := by
  unfold buildModel2
  refine List.mem_append_right _ ?_
  exact List.mem_flatMap.mpr ⟨t, ht, List.mem_cons_self _ _⟩

/-- The `OnlyEnforceIf` link constraints for each train are in
`solver2.py`'s model. -/
theorem servCostLink_mem_buildModel2 {trainsets : List Trainset} {elig : Nat → Bool}
    {iblCap manpowerCap : ℤ} {reqHours : Nat → ℤ} {t : Trainset} (ht : t ∈ trainsets) :
    Constr.servCostLink t.trainset_id
      ∈ buildModel2 trainsets elig iblCap manpowerCap reqHours := by
  unfold buildModel2
  refine List.mem_append_right _ ?_
  refine List.mem_flatMap.mpr ⟨t, ht, ?_⟩
  exact List.mem_cons_of_mem _ (List.mem_singleton.mpr rfl)

/-- A list of naturals with zero sum is all zeros. -/
theorem natSum_zero {l : List Nat} (h : l.sum = 0) : ∀ x ∈ l, x = 0 := by
  induction l with
  | nil => intro x hx; cases hx
  | cons a l ih =>
      intro x hx
      simp only [List.sum_cons] at h
      rcases List.mem_cons.mp hx with rfl | hx
      · omega
      · exact ih (by omega) x hx

/-- The maintenance-assigned count of a valuation, as summed in the
capacity constraint (`sum(maintenance vars)`). -/
def maintCount (trainsets : List Trainset) (sol : Sol) : Nat :=
  ((trainsets.map (·.trainset_id)).map (fun i => b2n (sol i).maintenance)).sum

/-! ### C1 -/

/-- C1: in both solvers' models, every valuation satisfying all posted
constraints — hence every assignment returned from an OPTIMAL or FEASIBLE
solve — gives `service = false` to each train whose eligibility verdict is
ineligible: the `service == 0` constraint is posted before solving. -/
theorem c1_ineligible_never_in_service (trainsets : List Trainset) (elig : Nat → Bool)
    (iblCap manpowerCap : ℤ) (reqHours : Nat → ℤ) (sol : Sol) :
    (satAll (buildModel1 trainsets elig iblCap manpowerCap reqHours) sol →
      ∀ t ∈ trainsets, elig t.trainset_id = false → (sol t.trainset_id).service = false)
    ∧ (satAll (buildModel2 trainsets elig iblCap manpowerCap reqHours) sol →
      ∀ t ∈ trainsets, elig t.trainset_id = false → (sol t.trainset_id).service = false) := by
  constructor
  · intro h t ht he
    have hs := satC_of_satAll h (serviceEqZero_mem_buildModel1 ht he)
    simpa [satC] using hs
  · intro h t ht he
    have hs := satC_of_satAll h (serviceEqZero_mem_buildModel2 ht he)
    simpa [satC] using hs

/-- `ratTrunc` of an integer is that integer. -/
theorem ratTrunc_intCast (z : ℤ) : ratTrunc (z : ℚ) = z := by
  unfold ratTrunc
  split
  · exact Int.floor_intCast z
  · exact Int.ceil_intCast z

/-- A two-train fleet: train 1 at 100 km, train 2 at 300 km (fleet
average 200 km). -/
def demoTrainsets : List Trainset := [⟨1, 100⟩, ⟨2, 300⟩]

/-- Eligibility making train 2 ineligible. -/
def demoElig : Nat → Bool := fun i => i == 1

/-- A valuation: train 1 in service, train 2 on standby; auxiliary
variables at their forced values (`|int(100 - 200)| = |int(300 - 200)| =
100`). -/
def demoSolA : Sol := fun i =>
  if i == 1 then ⟨true, false, false, 100, 100⟩ else ⟨false, true, false, 100, 0⟩

theorem demoAvg : avgMileage demoTrainsets = 200 := by
  norm_num [avgMileage, demoTrainsets]

theorem demoDev1 : ratTrunc ((100 : ℚ) - avgMileage demoTrainsets) = -100 := by
  have h : (100 : ℚ) - avgMileage demoTrainsets = ((-100 : ℤ) : ℚ) := by
    rw [demoAvg]; norm_num
  rw [h, ratTrunc_intCast]

theorem demoDev2 : ratTrunc ((300 : ℚ) - avgMileage demoTrainsets) = 100 := by
  have h : (300 : ℚ) - avgMileage demoTrainsets = ((100 : ℤ) : ℚ) := by
    rw [demoAvg]; norm_num
  rw [h, ratTrunc_intCast]

/-- `solver.py`'s model over the demo fleet, as an explicit constraint
list. -/
theorem demoModel1_eq (iblCap manpowerCap : ℤ) (reqHours : Nat → ℤ) :
    buildModel1 demoTrainsets demoElig iblCap manpowerCap reqHours =
      [.exactlyOne 1, .exactlyOne 2, .serviceEqZero 2,
       .maintLe [1, 2] iblCap,
       .hoursLe [(1, reqHours 1), (2, reqHours 2)] manpowerCap] := by
  simp [buildModel1, demoTrainsets, demoElig]

/-- `solver2.py`'s model over the demo fleet, as an explicit constraint
list with the deviation constants evaluated. -/
theorem demoModel2_eq (iblCap manpowerCap : ℤ) (reqHours : Nat → ℤ) :
    buildModel2 demoTrainsets demoElig iblCap manpowerCap reqHours =
      [.exactlyOne 1, .exactlyOne 2, .serviceEqZero 2,
       .maintLe [1, 2] iblCap,
       .hoursLe [(1, reqHours 1), (2, reqHours 2)] manpowerCap,
       .absDevEq 1 (-100), .servCostLink 1, .absDevEq 2 100, .servCostLink 2] := by
  unfold buildModel2
  rw [show demoTrainsets = [⟨1, 100⟩, ⟨2, 300⟩] from rfl]
  simp only [List.flatMap_cons, List.flatMap_nil, List.map_cons, List.map_nil]
  rw [show avgMileage [⟨1, 100⟩, ⟨2, 300⟩] = avgMileage demoTrainsets from rfl,
    demoDev1, demoDev2]
  simp [demoElig]

theorem c1_witness : (demoSolA 2).service = false :=
  (c1_ineligible_never_in_service demoTrainsets demoElig 1 10 (fun _ => 0) demoSolA).2
    (by rw [satAll, demoModel2_eq]; decide) ⟨2, 300⟩ (by decide) (by decide)

/-! ### C5 -/

/-- C5: in both solvers' models, every valuation satisfying all posted
constraints has at most `IBL_Bays` capacity many maintenance assignments;
in particular with capacity 0 no train at all is assigned maintenance. -/
theorem c5_maintenance_within_bay_capacity (trainsets : List Trainset)
    (elig : Nat → Bool) (iblCap manpowerCap : ℤ) (reqHours : Nat → ℤ) (sol : Sol) :
    (satAll (buildModel1 trainsets elig iblCap manpowerCap reqHours) sol →
      (maintCount trainsets sol : ℤ) ≤ iblCap
        ∧ (iblCap = 0 → ∀ t ∈ trainsets, (sol t.trainset_id).maintenance = false))
    ∧ (satAll (buildModel2 trainsets elig iblCap manpowerCap reqHours) sol →
      (maintCount trainsets sol : ℤ) ≤ iblCap
        ∧ (iblCap = 0 → ∀ t ∈ trainsets, (sol t.trainset_id).maintenance = false)) := by
  have key : ∀ (h : satC sol (Constr.maintLe (trainsets.map (·.trainset_id)) iblCap) = true),
      (maintCount trainsets sol : ℤ) ≤ iblCap
        ∧ (iblCap = 0 → ∀ t ∈ trainsets, (sol t.trainset_id).maintenance = false) := by
    intro h
    simp only [satC, decide_eq_true_eq] at h
    refine ⟨h, fun hz t ht => ?_⟩
    have hsum : ((trainsets.map (·.trainset_id)).map (fun i => b2n (sol i).maintenance)).sum = 0 := by
      rw [hz] at h; omega
    have hmem : b2n (sol t.trainset_id).maintenance
        ∈ (trainsets.map (·.trainset_id)).map (fun i => b2n (sol i).maintenance) :=
      List.mem_map_of_mem _ (List.mem_map_of_mem _ ht)
    have hzero := natSum_zero hsum _ hmem
    cases hb : (sol t.trainset_id).maintenance
    · rfl
    · rw [hb] at hzero; exact absurd hzero (by simp [b2n])
  exact ⟨fun h => key (satC_of_satAll h maintLe_mem_buildModel1),
    fun h => key (satC_of_satAll h maintLe_mem_buildModel2)⟩

/-- A valuation putting every train on standby. -/
def demoSolB : Sol := fun _ => ⟨false, true, false, 100, 0⟩

theorem c5_witness :
    (maintCount demoTrainsets demoSolB : ℤ) ≤ 0 ∧ (demoSolB 2).maintenance = false := by
  have h := (c5_maintenance_within_bay_capacity demoTrainsets demoElig 0 10
      (fun _ => 0) demoSolB).2 (by rw [satAll, demoModel2_eq]; decide)
  exact ⟨h.1, h.2 rfl ⟨2, 300⟩ (by decide)⟩

/-! ### C10 -/

/-- C10: in any valuation satisfying the exactly-one constraints — hence in
any assignment returned from an OPTIMAL/FEASIBLE solve — `solver.py`'s
decoder yields one of the three domain statuses for every train, so its
`"Unknown"` fallback is unreachable, and `solver2.py`'s three-branch
decoder agrees with it. -/
theorem c10_unknown_branch_unreachable (trainsets : List Trainset) (elig : Nat → Bool)
    (iblCap manpowerCap : ℤ) (reqHours : Nat → ℤ) (sol : Sol) :
    (satAll (buildModel1 trainsets elig iblCap manpowerCap reqHours) sol →
      ∀ t ∈ trainsets,
        decodeStatus1 (sol t.trainset_id)
            ∈ (["Revenue Service", "Standby", "Maintenance"] : List String)
          ∧ decodeStatus1 (sol t.trainset_id) ≠ "Unknown")
    ∧ (satAll (buildModel2 trainsets elig iblCap manpowerCap reqHours) sol →
      ∀ t ∈ trainsets,
        decodeStatus2 (sol t.trainset_id) = decodeStatus1 (sol t.trainset_id)) := by
  have key : ∀ i, satC sol (Constr.exactlyOne i) = true →
      (decodeStatus1 (sol i) ∈ (["Revenue Service", "Standby", "Maintenance"] : List String)
          ∧ decodeStatus1 (sol i) ≠ "Unknown")
        ∧ decodeStatus2 (sol i) = decodeStatus1 (sol i) := by
    intro i h
    simp only [satC] at h
    cases hs : (sol i).service <;> cases hb : (sol i).standby <;>
      cases hm : (sol i).maintenance <;>
      rw [hs, hb, hm] at h <;>
      simp_all [decodeStatus1, decodeStatus2, b2n]
  constructor
  · intro h t ht
    exact (key _ (satC_of_satAll h (exactlyOne_mem_buildModel1 ht))).1
  · intro h t ht
    exact (key _ (satC_of_satAll h (exactlyOne_mem_buildModel2 ht))).2

theorem c10_witness :
    decodeStatus1 (demoSolA 1)
      ∈ (["Revenue Service", "Standby", "Maintenance"] : List String) :=
  ((c10_unknown_branch_unreachable demoTrainsets demoElig 1 10 (fun _ => 0) demoSolA).1
    (by rw [satAll, demoModel1_eq]; decide) ⟨1, 100⟩ (by decide)).1

/-! ### C2 -/

/-- C2 (amended): in `solver2.py`'s model, every valuation satisfying the
posted constraints gives each train the mileage objective term
`|int(mileage - fleet average)|` when assigned service — including trains
below the fleet average — and `0` otherwise; the objective component is the
sum of these terms. -/
theorem c2_mileage_term_abs_in_solver2 (trainsets : List Trainset) (elig : Nat → Bool)
    (iblCap manpowerCap : ℤ) (reqHours : Nat → ℤ) (sol : Sol)
    (h : satAll (buildModel2 trainsets elig iblCap manpowerCap reqHours) sol) :
    (∀ t ∈ trainsets,
      (sol t.trainset_id).serv_cost =
        if (sol t.trainset_id).service then
          |ratTrunc (t.cumulative_mileage_km - avgMileage trainsets)| else 0)
    ∧ mileageCost2 trainsets sol =
        (trainsets.map (fun t =>
          if (sol t.trainset_id).service then
            |ratTrunc (t.cumulative_mileage_km - avgMileage trainsets)| else 0)).sum := by
  have key : ∀ t ∈ trainsets,
      (sol t.trainset_id).serv_cost =
        if (sol t.trainset_id).service then
          |ratTrunc (t.cumulative_mileage_km - avgMileage trainsets)| else 0 := by
    intro t ht
    have ha := satC_of_satAll h (absDevEq_mem_buildModel2 ht)
    have hl := satC_of_satAll h (servCostLink_mem_buildModel2 ht)
    simp only [satC, decide_eq_true_eq] at ha hl
    cases hs : (sol t.trainset_id).service
    · simp [hl.2.2.2 hs]
    · simp [hl.2.2.1 hs, ha.2.2]
  exact ⟨key, congrArg List.sum (List.map_congr_left key)⟩

/-- A fleet with a non-integral average: train 1 at 100 km, train 2 at
201 km (fleet average 150.5 km), so the deviations are `int(-50.5) = -50`
and `int(50.5) = 50` — truncation toward zero on a negative deviation. -/
def demoTrainsetsB : List Trainset := [⟨1, 100⟩, ⟨2, 201⟩]

theorem demoAvgB : avgMileage demoTrainsetsB = 301 / 2 := by
  norm_num [avgMileage, demoTrainsetsB]

theorem demoDevB1 : ratTrunc ((100 : ℚ) - avgMileage demoTrainsetsB) = -50 := by
  rw [demoAvgB, show (100 : ℚ) - 301 / 2 = -(101 / 2) from by norm_num]
  unfold ratTrunc
  rw [if_neg (by norm_num), Int.ceil_neg,
    show ⌊(101 / 2 : ℚ)⌋ = 50 from by rw [Int.floor_eq_iff]; constructor <;> norm_num]

theorem demoDevB2 : ratTrunc ((201 : ℚ) - avgMileage demoTrainsetsB) = 50 := by
  rw [demoAvgB, show (201 : ℚ) - 301 / 2 = (101 / 2 : ℚ) from by norm_num]
  unfold ratTrunc
  rw [if_pos (by norm_num),
    show ⌊(101 / 2 : ℚ)⌋ = 50 from by rw [Int.floor_eq_iff]; constructor <;> norm_num]

/-- `solver2.py`'s model over the non-integral-average fleet, as an
explicit constraint list with the truncated deviation constants. -/
theorem demoModelB2_eq (iblCap manpowerCap : ℤ) (reqHours : Nat → ℤ) :
    buildModel2 demoTrainsetsB demoElig iblCap manpowerCap reqHours =
      [.exactlyOne 1, .exactlyOne 2, .serviceEqZero 2,
       .maintLe [1, 2] iblCap,
       .hoursLe [(1, reqHours 1), (2, reqHours 2)] manpowerCap,
       .absDevEq 1 (-50), .servCostLink 1, .absDevEq 2 50, .servCostLink 2] := by
  unfold buildModel2
  rw [show demoTrainsetsB = [⟨1, 100⟩, ⟨2, 201⟩] from rfl]
  simp only [List.flatMap_cons, List.flatMap_nil, List.map_cons, List.map_nil]
  rw [show avgMileage [⟨1, 100⟩, ⟨2, 201⟩] = avgMileage demoTrainsetsB from rfl,
    demoDevB1, demoDevB2]
  simp [demoElig]

/-- A valuation over the non-integral-average fleet: train 1 (below the
150.5 km average) in service, with its auxiliary variables at the forced
values `abs_dev = |int(-50.5)| = 50`, `serv_mileage_cost = 50`. -/
def demoSolC : Sol := fun i =>
  if i == 1 then ⟨true, false, false, 50, 50⟩ else ⟨false, true, false, 50, 0⟩

theorem c2_witness : (demoSolC 1).serv_cost = 50 := by
  have h := (c2_mileage_term_abs_in_solver2 demoTrainsetsB demoElig 1 10 (fun _ => 0)
      demoSolC (by rw [satAll, demoModelB2_eq]; decide)).1 ⟨1, 100⟩ (by decide)
  rw [h]
  simp only [show (demoSolC 1).service = true from rfl, if_true]
  show |ratTrunc ((100 : ℚ) - avgMileage demoTrainsetsB)| = 50
  rw [demoDevB1]; decide

/-- C2 counterexample: over the demo fleet (train 1 at 100 km, train 2 at
300 km, fleet average 200 km) with train 1 assigned service, the claim
expects a mileage objective of `|100 - 200| = 100`, but `solver.py`'s
`total_mileage_cost` is `0`: its loop skips every train at or below the
fleet average, so a below-average service train contributes nothing. -/
theorem c2_counterexample :
    (demoSolA 1).service = true
    ∧ (100 : ℚ) < avgMileage demoTrainsets
    ∧ ((demoTrainsets.filter (fun t => (demoSolA t.trainset_id).service)).map
        (fun t => |ratTrunc (t.cumulative_mileage_km - avgMileage demoTrainsets)|)).sum = 100
    ∧ mileageCost1 demoTrainsets demoSolA = 0 := by
  refine ⟨rfl, by rw [demoAvg]; norm_num, ?_, ?_⟩
  · have hf : demoTrainsets.filter (fun t => (demoSolA t.trainset_id).service)
        = [⟨1, 100⟩] := by decide
    rw [hf]
    simp only [List.map_cons, List.map_nil, List.sum_cons, List.sum_nil]
    show |ratTrunc ((100 : ℚ) - avgMileage demoTrainsets)| + 0 = 100
    rw [demoDev1]; decide
  · have hc : mileageCost1 demoTrainsets demoSolA =
        ((demoTrainsets.filter
            (fun t => decide ((200 : ℚ) < t.cumulative_mileage_km))).map
          (fun t => (b2n (demoSolA t.trainset_id).service : ℤ)
            * ratTrunc (t.cumulative_mileage_km - (200 : ℚ)))).sum := by
      unfold mileageCost1
      rw [demoAvg]
    rw [hc]
    have hf : demoTrainsets.filter
        (fun t => decide ((200 : ℚ) < t.cumulative_mileage_km)) = [⟨2, 300⟩] := by
      rw [show demoTrainsets = [⟨1, 100⟩, ⟨2, 300⟩] from rfl]
      norm_num [List.filter]
    rw [hf]
    simp [demoSolA, b2n]

/-! ### C4 -/

/-- C4 (amended): an SLA row's branding objective term is
`penalty_per_hour` exactly when its vehicle is not assigned service, and
`0` when it is — independently of `current_exposure_hours` and
`target_exposure_hours`, which the objective never reads (the code compares
them only when composing audit text). -/
theorem c4_branding_term_iff_not_service (i : Nat) (cur tgt pen : ℤ) (sol : Sol) :
    slaTerm ⟨i, cur, tgt, pen⟩ sol = if (sol i).service then 0 else pen := by
  unfold slaTerm
  cases hs : (sol i).service <;> simp [b2n, hs]

/-- The demo SLA row: its exposure target is already met
(`current_exposure_hours = 50 ≥ 40 = target_exposure_hours`). -/
def demoSLA : SLA := ⟨2, 50, 40, 7⟩

/-- C4 counterexample: train 2's SLA target is already met and train 2 is
not assigned service, yet the branding objective charges the full
`penalty_per_hour = 7`; the claim says a met target incurs no penalty. -/
theorem c4_counterexample :
    demoSLA.target_exposure_hours ≤ demoSLA.current_exposure_hours
    ∧ (demoSolA 2).service = false
    ∧ slaTerm demoSLA demoSolA = 7
    ∧ brandingPenalty [demoSLA] [1, 2] demoSolA = 7 := by
  decide

/-! ### C6 -/

/-- C6: both solvers return `None` — no assignment at all — when the engine
status is INFEASIBLE or TIMEOUT, and return a decoded status for every
train of the roster exactly when the status is OPTIMAL or FEASIBLE. -/
theorem c6_none_unless_optimal_or_feasible (status : CpStatus)
    (trainsets : List Trainset) (sol : Sol) :
    ((status = .infeasible ∨ status = .timeout) →
      processResult1 status trainsets sol = none
        ∧ processResult2 status trainsets sol = none)
    ∧ ((status = .optimal ∨ status = .feasible) →
      processResult1 status trainsets sol ≠ none
        ∧ processResult2 status trainsets sol ≠ none
        ∧ ((processResult1 status trainsets sol).getD []).map Prod.fst
            = trainsets.map (·.trainset_id)
        ∧ ((processResult2 status trainsets sol).getD []).map Prod.fst
            = trainsets.map (·.trainset_id)) := by
  constructor
  · rintro (rfl | rfl) <;> exact ⟨rfl, rfl⟩
  · intro h
    simp [processResult1, processResult2, if_pos h, List.map_map, Function.comp]

theorem c6_witness :
    processResult1 .timeout demoTrainsets demoSolA = none
    ∧ processResult2 .infeasible demoTrainsets demoSolA = none
    ∧ ((processResult1 .optimal demoTrainsets demoSolA).getD []).map Prod.fst = [1, 2] := by
  refine ⟨((c6_none_unless_optimal_or_feasible .timeout demoTrainsets demoSolA).1
      (Or.inr rfl)).1,
    ((c6_none_unless_optimal_or_feasible .infeasible demoTrainsets demoSolA).1
      (Or.inl rfl)).2, ?_⟩
  have h := ((c6_none_unless_optimal_or_feasible .optimal demoTrainsets demoSolA).2
    (Or.inl rfl)).2.2.1
  rw [h]; decide

/-! ### C3 -/

/-- C3 (amended): for a vehicle with at least the minimum 3 certificates on
file, a certificate whose expiry date is strictly before the reference date
makes the verdict ineligible with reason `certificate_expired` (and
`solver.py`'s boolean eligibility false); a certificate expiring exactly on
the reference date does not trigger this rule — both solvers compare with
strict `<`. -/
theorem c3_expired_strictly_before (certificates : List Certificate)
    (job_cards : List JobCard) (today : ℤ) (train_id : Nat)
    (hlen : 3 ≤ (certificates.filter (fun c => c.trainset_id == train_id)).length)
    (hexp : ∃ c ∈ certificates.filter (fun c => c.trainset_id == train_id),
      c.expiry_date < today) :
    verdictFor certificates job_cards today train_id = ⟨false, .certificateExpired⟩
      ∧ preprocess_data today certificates job_cards train_id = false := by
  obtain ⟨c, hc, hcd⟩ := hexp
  have hany : (certificates.filter (fun c => c.trainset_id == train_id)).any
      (fun c => decide (c.expiry_date < today)) = true :=
    List.any_eq_true.mpr ⟨c, hc, by simpa using hcd⟩
  constructor
  · unfold verdictFor
    rw [if_neg (by omega), if_pos hany]
  · unfold preprocess_data
    rw [if_pos (by rw [hany]; exact Bool.or_true _)]

/-- Three certificates for train 1, one expiring exactly on day 100. -/
def demoC3certs : List Certificate := [⟨1, 100⟩, ⟨1, 200⟩, ⟨1, 300⟩]

/-- C3 counterexample: with reference date 100, train 1 holds 3
certificates and one of them expires exactly on the reference date, yet
both solvers deem it eligible — the code tests `expiry_date < today`, so
expiry on the reference date does not make the vehicle ineligible. -/
theorem c3_counterexample :
    3 ≤ (demoC3certs.filter (fun c => c.trainset_id == 1)).length
    ∧ (∃ c ∈ demoC3certs.filter (fun c => c.trainset_id == 1),
        c.expiry_date ≤ 100)
    ∧ verdictFor demoC3certs [] 100 1 = ⟨true, .eligible⟩
    ∧ preprocess_data 100 demoC3certs [] 1 = true := by
  decide

/-- Three certificates for train 1, one already expired on day 90. -/
def demoC3expired : List Certificate := [⟨1, 90⟩, ⟨1, 200⟩, ⟨1, 300⟩]

theorem c3_witness :
    verdictFor demoC3expired [] 100 1 = ⟨false, .certificateExpired⟩ :=
  (c3_expired_strictly_before demoC3expired [] 100 1 (by decide) (by decide)).1

/-! ### C8 -/

/-- C8 (amended): eligibility evaluation is a deterministic function of the
vehicle's own certificate and job-card rows and the reference date: if two
datasets agree on the rows filed under a vehicle's id, the verdicts agree.
`solver2.py` fixes the reference date to 2025-09-18, so its verdict is
invariant under the ambient wall-clock date of the run; `solver.py` instead
uses the wall-clock date as reference date, so its verdicts can differ
between runs on identical data (see the counterexample). -/
theorem c8_eligibility_deterministic (clock₁ clock₂ today : ℤ)
    (certs₁ certs₂ : List Certificate) (jobs₁ jobs₂ : List JobCard) (train_id : Nat)
    (hc : certs₁.filter (fun c => c.trainset_id == train_id)
        = certs₂.filter (fun c => c.trainset_id == train_id))
    (hj : jobs₁.filter (fun j => j.trainset_id == train_id)
        = jobs₂.filter (fun j => j.trainset_id == train_id)) :
    preprocess_data_with_reasons clock₁ certs₁ jobs₁ train_id
        = preprocess_data_with_reasons clock₂ certs₂ jobs₂ train_id
      ∧ verdictFor certs₁ jobs₁ today train_id
        = verdictFor certs₂ jobs₂ today train_id := by
  have key : ∀ d, verdictFor certs₁ jobs₁ d train_id
      = verdictFor certs₂ jobs₂ d train_id := by
    intro d
    unfold verdictFor
    rw [hc, hj]
  exact ⟨key refDate2, key today⟩

/-- Three certificates for train 1, all expiring on day 150: eligible when
the clock reads 100, expired when it reads 200. -/
def demoC8certs : List Certificate := [⟨1, 150⟩, ⟨1, 160⟩, ⟨1, 170⟩]

/-- C8 counterexample: on identical datasets, `solver.py`'s
`preprocess_data` — which reads `datetime.date.today()` — deems train 1
eligible when the wall clock reads day 100 and ineligible when it reads
day 200: the verdict depends on the wall-clock date, which the claim rules
out. -/
theorem c8_counterexample :
    preprocess_data 100 demoC8certs [] 1 = true
    ∧ preprocess_data 200 demoC8certs [] 1 = false := by
  decide

theorem c8_witness :
    preprocess_data_with_reasons 100 demoC8certs [] 1
      = preprocess_data_with_reasons 200 demoC8certs [] 1 :=
  (c8_eligibility_deterministic 100 200 100 demoC8certs demoC8certs [] [] 1 rfl rfl).1

/-! ### C7 -/

/-- With pairwise-distinct mileages, the stable ascending-mileage sort,
reversed, is the stable descending-mileage sort. -/
theorem reverse_sortAsc_eq_sortDesc {bucket : List Detail}
    (hd : bucket.Pairwise (fun a b => a.mileage ≠ b.mileage)) :
    (List.insertionSort mleAsc bucket).reverse = List.insertionSort mleDesc bucket := by
  have pAsc : (List.insertionSort mleAsc bucket).Perm bucket := List.perm_insertionSort _ _
  have pDesc : (List.insertionSort mleDesc bucket).Perm bucket := List.perm_insertionSort _ _
  have hdAsc : (List.insertionSort mleAsc bucket).Pairwise
      (fun a b => a.mileage ≠ b.mileage) :=
    (List.Perm.pairwise_iff (fun h => Ne.symm h) pAsc).mpr hd
  have hdDesc : (List.insertionSort mleDesc bucket).Pairwise
      (fun a b => a.mileage ≠ b.mileage) :=
    (List.Perm.pairwise_iff (fun h => Ne.symm h) pDesc).mpr hd
  have sAsc : List.Sorted mleAsc (List.insertionSort mleAsc bucket) :=
    List.sorted_insertionSort _ _
  have sDesc : List.Sorted mleDesc (List.insertionSort mleDesc bucket) :=
    List.sorted_insertionSort _ _
  have strictAsc : (List.insertionSort mleAsc bucket).Pairwise
      (fun a b => a.mileage < b.mileage) :=
    List.Pairwise.imp₂ (fun _ _ hle hne => lt_of_le_of_ne hle hne) sAsc hdAsc
  have strictDesc : (List.insertionSort mleDesc bucket).Pairwise mGt :=
    List.Pairwise.imp₂ (fun _ _ hle hne => lt_of_le_of_ne hle (Ne.symm hne)) sDesc hdDesc
  have revSorted : (List.insertionSort mleAsc bucket).reverse.Pairwise mGt :=
    List.pairwise_reverse.mpr strictAsc
  have pRev : (List.insertionSort mleAsc bucket).reverse.Perm
      (List.insertionSort mleDesc bucket) :=
    ((List.reverse_perm _).trans pAsc).trans pDesc.symm
  exact List.eq_of_perm_of_sorted pRev revSorted strictDesc

/-- C7 (amended): for a fixed assignment, the ranked Service bucket for a
long route (distance at least the mean of the configured route distances)
is exactly the reverse of the ranked Service bucket for a short route,
provided the bucket's mileages are pairwise distinct.  With equal mileages
present the orders are not mutual reverses: Python's stable sort keeps
equal-mileage vehicles in original order under both keys (see the
counterexample). -/
theorem c7_long_ranking_reverses_short (lines : List (String × ℚ)) (dLong dShort : ℚ)
    (allDetails : List Detail)
    (hLong : avgLineMileage lines ≤ dLong) (hShort : dShort < avgLineMileage lines)
    (hd : (serviceTrains allDetails).Pairwise (fun a b => a.mileage ≠ b.mileage)) :
    (sortServiceBucket lines dLong (serviceTrains allDetails)).reverse
      = sortServiceBucket lines dShort (serviceTrains allDetails) := by
  unfold sortServiceBucket
  rw [if_pos hLong, if_neg (not_le.mpr hShort)]
  exact reverse_sortAsc_eq_sortDesc hd

theorem avgMETRO : avgLineMileage METRO_LINES = 670 := by
  norm_num [avgLineMileage, METRO_LINES]

/-- Details with two equal-mileage service trains. -/
def demoTieAll : List Detail :=
  [⟨1, "Revenue Service", 500⟩, ⟨2, "Revenue Service", 500⟩, ⟨3, "Standby", 400⟩]

/-- C7 counterexample: with two service trains of equal mileage (500 km),
the Service-bucket order for the long Line E (1100 ≥ mean 670) is
`[1, 2]` and for the short Line A (250 < 670) is also `[1, 2]` — the stable
sorts preserve the original order of ties under both keys, so the long
order is not the reverse of the short order. -/
theorem c7_counterexample :
    (sortServiceBucket METRO_LINES 1100 (serviceTrains demoTieAll)).reverse
      ≠ sortServiceBucket METRO_LINES 250 (serviceTrains demoTieAll) := by
  have h1 : sortServiceBucket METRO_LINES 1100 (serviceTrains demoTieAll)
      = List.insertionSort mleAsc (serviceTrains demoTieAll) := by
    unfold sortServiceBucket
    rw [if_pos (by rw [avgMETRO]; norm_num)]
  have h2 : sortServiceBucket METRO_LINES 250 (serviceTrains demoTieAll)
      = List.insertionSort mleDesc (serviceTrains demoTieAll) := by
    unfold sortServiceBucket
    rw [if_neg (by rw [avgMETRO]; norm_num)]
  rw [h1, h2]
  decide

/-- Details with pairwise-distinct service mileages. -/
def demoDistinctAll : List Detail :=
  [⟨1, "Revenue Service", 500⟩, ⟨2, "Revenue Service", 300⟩, ⟨3, "Standby", 400⟩]

theorem c7_witness :
    (sortServiceBucket METRO_LINES 1100 (serviceTrains demoDistinctAll)).reverse
      = sortServiceBucket METRO_LINES 250 (serviceTrains demoDistinctAll) :=
  c7_long_ranking_reverses_short METRO_LINES 1100 250 demoDistinctAll
    (by rw [avgMETRO]; norm_num) (by rw [avgMETRO]; norm_num) (by decide)

/-! ### C9 -/

/-- Case analysis of `preprocess_shunting_costs`: it always returns `some`
pair of truncated averages, and an empty filter yields average `0`. -/
theorem shunting_cases (layout : List LayoutCost) :
    ∃ a b : ℚ,
      preprocess_shunting_costs layout = some ⟨ratTrunc a, ratTrunc b⟩
      ∧ ((layout.filter (fun r => strContainsSub r.to_location "IBL_Bay")).isEmpty = true
          → a = 0)
      ∧ ((layout.filter (fun r => strContainsSub r.to_location "Stabling_Track")).isEmpty = true
          → b = 0) := by
  unfold preprocess_shunting_costs
  cases hm : layout.filter (fun r => strContainsSub r.to_location "IBL_Bay") with
  | nil =>
    cases hs : layout.filter (fun r => strContainsSub r.to_location "Stabling_Track") with
    | nil => exact ⟨0, 0, rfl, fun _ => rfl, fun _ => rfl⟩
    | cons y ys =>
        exact ⟨0, ((y :: ys).map (·.shunting_cost)).sum / (((y :: ys).map (·.shunting_cost)).length : ℚ),
          rfl, fun _ => rfl, fun h => by simp at h⟩
  | cons x xs =>
    cases hs : layout.filter (fun r => strContainsSub r.to_location "Stabling_Track") with
    | nil =>
        exact ⟨((x :: xs).map (·.shunting_cost)).sum / (((x :: xs).map (·.shunting_cost)).length : ℚ), 0,
          rfl, fun h => by simp at h, fun _ => rfl⟩
    | cons y ys =>
        exact ⟨((x :: xs).map (·.shunting_cost)).sum / (((x :: xs).map (·.shunting_cost)).length : ℚ),
          ((y :: ys).map (·.shunting_cost)).sum / (((y :: ys).map (·.shunting_cost)).length : ℚ),
          rfl, fun h => by simp at h, fun h => by simp at h⟩

/-- C9: `preprocess_shunting_costs` never takes the undefined
empty-column-mean branch — it always returns a pair of integer-truncated
averages — and when no `to_location` contains `IBL_Bay` (respectively
`Stabling_Track`) the corresponding derived average is `0` rather than a
failure. -/
theorem c9_shunting_zero_defaults (layout : List LayoutCost) :
    (∃ a b : ℚ, preprocess_shunting_costs layout = some ⟨ratTrunc a, ratTrunc b⟩)
    ∧ ((layout.filter (fun r => strContainsSub r.to_location "IBL_Bay")).isEmpty = true
        → ((preprocess_shunting_costs layout).getD ⟨1, 1⟩).maintenance = 0)
    ∧ ((layout.filter (fun r => strContainsSub r.to_location "Stabling_Track")).isEmpty = true
        → ((preprocess_shunting_costs layout).getD ⟨1, 1⟩).stabling = 0) := by
  obtain ⟨a, b, heq, ha, hb⟩ := shunting_cases layout
  refine ⟨⟨a, b, heq⟩, fun h => ?_, fun h => ?_⟩
  · rw [heq, Option.getD_some, ha h]
    show ratTrunc 0 = 0
    simp [ratTrunc]
  · rw [heq, Option.getD_some, hb h]
    show ratTrunc 0 = 0
    simp [ratTrunc]

/-- A cost table with stabling rows only (no `IBL_Bay` destination). -/
def demoLayout : List LayoutCost := [⟨"Stabling_Track_1", 3⟩, ⟨"Stabling_Track_2", 5⟩]

theorem c9_witness :
    preprocess_shunting_costs demoLayout ≠ none
    ∧ ((preprocess_shunting_costs demoLayout).getD ⟨1, 1⟩).maintenance = 0 := by
  refine ⟨?_, (c9_shunting_zero_defaults demoLayout).2.1 (by decide)⟩
  obtain ⟨a, b, heq⟩ := (c9_shunting_zero_defaults demoLayout).1
  rw [heq]
  exact Option.some_ne_none _

end KMRL
